import Mathlib

/-!
Shallow embedding of the notification dispatch pipeline of the
cuet-swe-notification backend, translated from
`src/services/notificationService.ts`, `src/controllers/notificationController.ts`,
`src/controllers/invitation.controller.ts` (ClassTestController.getEnrolledStudentEmails)
and the queue worker (`src/workers/notificationWorker.ts`).

Effects are made explicit:
- the datastore and the push gateway become an `Env` of pure lookup functions;
- every delivery function additionally returns the list of messages it posted
  to the push gateway, so that "the gateway was not called" is a provable fact;
- datastore queries that the source awaits inside a try/catch are passed in as
  `Except String` values, the `error` case standing for a thrown datastore error;
- a per-target dispatch that may throw is modelled as a function into
  `Except String`, mirroring the try/catch in `sendNotificationToUsers`;
- the 1-second inter-chunk pause of `sendBatchNotifications` is counted
  instead of slept.
-/

set_option autoImplicit false

set_option maxRecDepth 4000

universe u

/-- Response of the Expo push gateway as observed by `sendPushNotification`:
the axios call succeeds and `result.data?.status` is not the string error
(`ok`), the call succeeds but the gateway reports a per-message error status
(`errorStatus`, carrying `result.data.message`), or the axios call throws
(`transportError`). -/
inductive GatewayResponse where
  | ok (result : String)
  | errorStatus (msg : String)
  | transportError (err : String)
deriving Repr, DecidableEq

/-- Outcome of one delivery attempt, the shape returned by
`sendPushNotification` and `sendNotificationToUser`:
`{success, error?, data?}`. -/
structure ChannelOutcome where
  success : Bool
  error : Option String := none
  data : Option String := none
deriving Repr, DecidableEq

/-- The message object posted to the push gateway (`PushMessage` in the
source): `{to, sound: 'default', title, body, data}`. -/
structure PushMessage where
  «to» : String
  sound : String
  title : String
  body : String
deriving Repr, DecidableEq

/-- The external world of the delivery layer: `userDoc email` is the Firestore
document `users/email` (`none` when the document does not exist, otherwise the
optional `expoPushToken` field), and `gateway` is the push gateway's response
to a posted message. -/
structure Env where
  userDoc : String → Option (Option String)
  gateway : PushMessage → GatewayResponse

/-- Source function `getUserPushToken`: fetch `users/email`; return `null`
when the document does not exist; otherwise `doc.data()?.expoPushToken || null`
(so an absent or empty token field yields `null`). -/
def getUserPushToken (env : Env) (email : String) : Option String :=
  match env.userDoc email with
  | none => none
  | some tokenField =>
    match tokenField with
    | none => none
    | some token => if token = "" then none else some token

/-- Source function `sendPushNotification`: build the message, post it to the
gateway, and map the response to a `ChannelOutcome`. The second component is
the list of messages posted (always exactly one here). -/
def sendPushNotification (env : Env) (expoPushToken title body : String) :
    ChannelOutcome × List PushMessage :=
  let message : PushMessage :=
    { «to» := expoPushToken, sound := "default", title := title, body := body }
  match env.gateway message with
  | .ok result => ({ success := true, data := some result }, [message])
  | .errorStatus msg => ({ success := false, error := some msg }, [message])
  | .transportError err => ({ success := false, error := some err }, [message])

/-- Source function `sendNotificationToUser`: look up the push token; when it
is absent return `{success:false, error:'no-token'}` without posting anything;
otherwise delegate to `sendPushNotification`. -/
def sendNotificationToUser (env : Env) (email title body : String) :
    ChannelOutcome × List PushMessage :=
  match getUserPushToken env email with
  | none => ({ success := false, error := some "no-token" }, [])
  | some token => sendPushNotification env token title body

/-- Whether a gateway response counts as a success in
`sendPushNotification`. -/
def gatewayOk : GatewayResponse → Bool
  | .ok _ => true
  | .errorStatus _ => false
  | .transportError _ => false

/-- Modelled from the spec (section 4.3), NOT from the source: the
specification describes a single-target dispatch with a second, email,
channel and OR-semantics
`{success: pushResult.success || emailResult.success, push, emailResult}`.
No email client or email outcome exists anywhere in the source; this
definition exists only to state what the spec predicts, for comparison with
`sendNotificationToUser`. -/
structure SpecNotifyResult where
  success : Bool
  push : ChannelOutcome
  emailResult : ChannelOutcome
deriving Repr, DecidableEq

/-- Modelled from the spec (section 4.3): combine a push outcome and an email
outcome with OR-semantics. -/
def specNotify (pushResult emailResult : ChannelOutcome) : SpecNotifyResult :=
  { success := pushResult.success || emailResult.success
    push := pushResult
    emailResult := emailResult }

/-- A user document holding a stale token: the gateway rejects every message
with a DeviceNotRegistered error status. -/
def envStaleToken : Env :=
  { userDoc := fun email => if email = "a@x.com" then some (some "tok-1") else none
    gateway := fun _ => .errorStatus "DeviceNotRegistered" }

/-- No user document has a push token; the gateway (never reached) would
accept everything. -/
def envNoToken : Env :=
  { userDoc := fun _ => none
    gateway := fun _ => .ok "receipt" }

/-- C1 counterexample: at a concrete input where the push channel fails
(stale token, gateway error status) the code's single-target dispatch returns
overall success `false` carrying only the push outcome, whereas the claimed
OR-semantics with a succeeding email channel would make the overall success
`true`. There is no email outcome in the code's result at all. -/
theorem singleDispatch_or_semantics_counterexample :
    (sendNotificationToUser envStaleToken "a@x.com" "T" "B").1 =
      { success := false, error := some "DeviceNotRegistered" } ∧
    (specNotify (sendNotificationToUser envStaleToken "a@x.com" "T" "B").1
      { success := true }).success = true := by
  decide

/-- C1 amended: the single-target dispatch has only a push channel; its
overall success flag is true exactly when a push token is found and the
gateway reports success for the posted message. -/
theorem singleDispatch_success_iff_push_ok (env : Env) (email title body : String) :
    (sendNotificationToUser env email title body).1.success = true ↔
      ∃ t, getUserPushToken env email = some t ∧
        gatewayOk (env.gateway
          { «to» := t, sound := "default", title := title, body := body }) = true := by
  unfold sendNotificationToUser sendPushNotification
  cases h : getUserPushToken env email with
  | none => simp
  | some token =>
    simp only []
    cases hg : env.gateway { «to» := token, sound := "default", title := title, body := body } with
    | ok result => simp [hg, gatewayOk]
    | errorStatus msg => simp [hg, gatewayOk]
    | transportError err => simp [hg, gatewayOk]

/-- C2 counterexample: at a concrete input whose token lookup returns null,
the code's overall success is `false` unconditionally, whereas the claim makes
the overall success equal the email channel's success, hence `true` for a
succeeding email channel; the code has no email channel. -/
theorem singleDispatch_no_token_email_counterexample :
    (sendNotificationToUser envNoToken "b@x.com" "T" "B").1.success = false ∧
    (specNotify (sendNotificationToUser envNoToken "b@x.com" "T" "B").1
      { success := true }).success = true := by
  decide

/-- C2 amended: when the push-token lookup returns null, the single-target
dispatch records `{success:false, error:'no-token'}`, posts nothing to the
gateway, and its overall success is false. -/
theorem singleDispatch_no_token (env : Env) (email title body : String)
    (h : getUserPushToken env email = none) :
    sendNotificationToUser env email title body =
      ({ success := false, error := some "no-token" }, []) := by
  unfold sendNotificationToUser
  rw [h]

/-- Witness for C2 amended at a concrete environment with no stored token. -/
theorem singleDispatch_no_token_witness :
    sendNotificationToUser envNoToken "a@x.com" "T" "B" =
      ({ success := false, error := some "no-token" }, []) :=
  singleDispatch_no_token envNoToken "a@x.com" "T" "B" (by decide)

/-- One entry of a DispatchSummary's `results`: `{email, ...result}` as built
in `sendNotificationToUsers` and `sendBatchNotifications`. -/
structure TargetResult where
  email : String
  success : Bool
  error : Option String := none
  data : Option String := none
deriving Repr, DecidableEq

/-- The aggregate returned by every multi-target dispatch:
`{total, successful, failed, results}`, plus the optional `error` key that the
catch branches of the course/role dispatchers add. -/
structure DispatchSummary where
  total : Nat
  successful : Nat
  failed : Nat
  results : List TargetResult
  error : Option String := none
deriving Repr, DecidableEq

/-- The body of the `emailList.map` callback in `sendNotificationToUsers`:
run the single-target dispatch for one email inside a try/catch; a thrown
error becomes `{email, success:false, error:String(error)}`. The per-target
behaviour (including whether it throws) is a parameter `notifyE`; its `ok`
value carries the `ChannelOutcome` together with the gateway messages it
posted. -/
def dispatchCaught (notifyE : String → Except String (ChannelOutcome × List PushMessage))
    (email : String) : TargetResult × List PushMessage :=
  match notifyE email with
  | .ok r => ({ email := email, success := r.1.success, error := r.1.error, data := r.1.data }, r.2)
  | .error err => ({ email := email, success := false, error := some err }, [])

/-- Source function `sendNotificationToUsers`: map the caught single-target
dispatch over the email list, count the successes, and aggregate
`{total: emailList.length, successful, failed: total - successful, results}`.
The second component collects every message posted to the gateway. -/
def sendNotificationToUsers
    (notifyE : String → Except String (ChannelOutcome × List PushMessage))
    (emailList : List String) : DispatchSummary × List PushMessage :=
  let pairs := emailList.map (dispatchCaught notifyE)
  let results := pairs.map (fun p => p.1)
  let successful := (results.filter (fun r => r.success)).length
  ({ total := emailList.length
     successful := successful
     failed := emailList.length - successful
     results := results },
   (pairs.map (fun p => p.2)).flatten)

/-- The per-target behaviour induced by an `Env`: `sendNotificationToUser`
never throws in the pure model (all its internal awaits are caught in the
source), so every email maps to an `ok` outcome. -/
def notifyOfEnv (env : Env) (title body : String) :
    String → Except String (ChannelOutcome × List PushMessage) :=
  fun email => .ok (sendNotificationToUser env email title body)

/-- One document of the Firestore `enrollments` collection as read by
`sendNotificationToCourseStudents`: it carries a `studentEmail` field. -/
structure EnrollmentDoc where
  courseId : String
  studentEmail : String
deriving Repr, DecidableEq

/-- Source function `sendNotificationToCourseStudents`. The awaited query
`enrollments.where('courseId','==',courseId).get()` is passed in as
`enrollmentsQuery`; its `error` case models a thrown datastore error, which
the surrounding try/catch converts into a zero summary carrying the error
string. The last component counts how many times `sendNotificationToUsers`
was invoked. -/
def sendNotificationToCourseStudents
    (enrollmentsQuery : Except String (List EnrollmentDoc))
    (notifyE : String → Except String (ChannelOutcome × List PushMessage)) :
    DispatchSummary × List PushMessage × Nat :=
  match enrollmentsQuery with
  | .error err =>
    ({ total := 0, successful := 0, failed := 0, results := [], error := some err }, [], 0)
  | .ok docs =>
    let studentEmails := docs.map (fun d => d.studentEmail)
    if studentEmails.length = 0 then
      ({ total := 0, successful := 0, failed := 0, results := [] }, [], 0)
    else
      let r := sendNotificationToUsers notifyE studentEmails
      (r.1, r.2, 1)

/-- Source function `sendNotificationToUsersByRole`. The awaited query
`users.where('role','==',role).get()` is passed in as `usersQuery`, already
mapped to the document ids (emails); its `error` case models a thrown
datastore error, caught and converted into a zero summary with the error
string. The last component counts invocations of `sendNotificationToUsers`. -/
def sendNotificationToUsersByRole
    (usersQuery : Except String (List String))
    (notifyE : String → Except String (ChannelOutcome × List PushMessage)) :
    DispatchSummary × List PushMessage × Nat :=
  match usersQuery with
  | .error err =>
    ({ total := 0, successful := 0, failed := 0, results := [], error := some err }, [], 0)
  | .ok emails =>
    if emails.length = 0 then
      ({ total := 0, successful := 0, failed := 0, results := [] }, [], 0)
    else
      let r := sendNotificationToUsers notifyE emails
      (r.1, r.2, 1)

/-- One element of the `notifications` argument of
`sendBatchNotifications`. -/
structure BatchItem where
  email : String
  title : String
  body : String
deriving Repr, DecidableEq

/-- Fuel-bounded chunking loop. With fuel at least `l.length` and positive
`n` this computes exactly the slices `l.slice(i, i+n)` of the source's `for`
loop. -/
def chunksOfAux {α : Type u} (fuel : Nat) (n : Nat) (l : List α) : List (List α) :=
  match fuel, l with
  | 0, _ => []
  | _ + 1, [] => []
  | fuel + 1, a :: t => (a :: t).take n :: chunksOfAux fuel n ((a :: t).drop n)

/-- The chunking loop of `sendBatchNotifications`:
`for (let i = 0; i < notifications.length; i += chunkSize)
   chunks.push(notifications.slice(i, i + chunkSize))`.
`l.length` steps of fuel always suffice for a positive `chunkSize`. -/
def chunksOf {α : Type u} (n : Nat) (l : List α) : List (List α) :=
  chunksOfAux l.length n l

/-- The per-item dispatch of `sendBatchNotifications`: call
`sendNotificationToUser` with the item's own email/title/body and tag the
outcome with the email. -/
def batchItemDispatch (env : Env) (notif : BatchItem) : TargetResult :=
  let r := (sendNotificationToUser env notif.email notif.title notif.body).1
  { email := notif.email, success := r.success, error := r.error, data := r.data }

/-- The `for (const chunk of chunks)` loop of `sendBatchNotifications`:
dispatch every item of the chunk, append the results, and — whenever the
TOTAL number of chunks (`numChunks`, the source's `chunks.length`) exceeds
one — sleep one second after the chunk. The second component counts those
sleeps. -/
def batchChunks (env : Env) (numChunks : Nat) :
    List (List BatchItem) → List TargetResult × Nat
  | [] => ([], 0)
  | c :: rest =>
    let rs := c.map (batchItemDispatch env)
    let d : Nat := if 1 < numChunks then 1 else 0
    let pr := batchChunks env numChunks rest
    (rs ++ pr.1, d + pr.2)

/-- Source function `sendBatchNotifications`: partition into chunks of
`chunkSize` (default 100), process the chunks sequentially, and aggregate
`{total: notifications.length, successful, failed, results: allResults}`.
The second component is the number of 1-second inter-chunk sleeps
performed. -/
def sendBatchNotifications (env : Env) (notifications : List BatchItem)
    (chunkSize : Nat := 100) : DispatchSummary × Nat :=
  let chunks := chunksOf chunkSize notifications
  let pr := batchChunks env chunks.length chunks
  let successful := (pr.1.filter (fun r => r.success)).length
  ({ total := notifications.length
     successful := successful
     failed := notifications.length - successful
     results := pr.1 }, pr.2)

/-- One row of the MongoDB `StudentEnrollment` collection, as used by
`ClassTestController.getEnrolledStudentEmails`: a closed numeric id range
attached to a course. -/
structure EnrollmentRow where
  course : String
  startId : Nat
  endId : Nat
deriving Repr, DecidableEq

/-- One document of the MongoDB `Student` collection: a numeric student id
and an email. -/
structure StudentRec where
  studentId : Nat
  email : String
deriving Repr, DecidableEq

/-- One insertion of the source's email `Set`: `Set.add` followed by `Array.from` in the source preserves first-insertion
order and drops later duplicates. -/
def addUnique (acc : List String) (x : String) : List String :=
  if x ∈ acc then acc else acc ++ [x]

/-- The query `Student.find({studentId: {$gte: startId, $lte: endId}})`. -/
def studentsInRange (students : List StudentRec) (startId endId : Nat) : List StudentRec :=
  students.filter (fun s => decide (startId ≤ s.studentId) && decide (s.studentId ≤ endId))

/-- Source function `ClassTestController.getEnrolledStudentEmails`: fetch the
enrollment rows of the course, and for each row add the emails of the
existing students whose id lies in the row's closed range to a set; return
the set as a list. `enrollments` and `students` are the full collections;
the `find` filters are applied here. -/
def getEnrolledStudentEmails (enrollments : List EnrollmentRow)
    (students : List StudentRec) (courseId : String) : List String :=
  let rows := enrollments.filter (fun e => e.course == courseId)
  rows.foldl
    (fun acc e =>
      (studentsInRange students e.startId e.endId).foldl
        (fun a s => addUnique a s.email) acc)
    []

/-- Source function `getStudentEmailFromId` from the role utilities. -/
def getStudentEmailFromId (studentId : Nat) : String :=
  "u" ++ toString studentId ++ "@student.cuet.ac.bd"

namespace QUEUE_EVENTS

/-- Queue job kind constant from `src/config/queue.ts`. -/
def SEND_USER : String := "send-user"

/-- Queue job kind constant from `src/config/queue.ts`. -/
def SEND_USERS : String := "send-users"

/-- Queue job kind constant from `src/config/queue.ts`. -/
def SEND_COURSE : String := "send-course"

/-- Queue job kind constant from `src/config/queue.ts`. -/
def SEND_ROLE : String := "send-role"

/-- Queue job kind constant from `src/config/queue.ts`. -/
def SEND_BATCH : String := "send-batch"

end QUEUE_EVENTS

/-- JavaScript falsiness of an optional string field of a request body:
a missing field (`undefined`) and the empty string are falsy. -/
def falsy : Option String → Bool
  | none => true
  | some s => s == ""

/-- The check `!x || !Array.isArray(x)` for an optional array field: only a missing
field fails the check in the typed model (an empty array is truthy and is an
array). -/
def missingArray {α : Type u} : Option (List α) → Bool
  | none => true
  | some _ => false

/-- A job as placed on `notificationQueue` by the producer controllers:
the job name and the payload fields of the enqueue call. -/
structure QueuedJob where
  name : String
  email : Option String := none
  emails : Option (List String) := none
  courseId : Option String := none
  role : Option String := none
  notifications : Option (List BatchItem) := none
  title : Option String := none
  body : Option String := none
deriving Repr, DecidableEq

/-- Source producer `sendToUser` from `notificationController.ts`: validate
`email, title, body`; on a missing (falsy) field respond 400 and enqueue
nothing, otherwise enqueue one send-user job and respond 200. -/
def sendToUser (email title body : Option String) : Nat × List QueuedJob :=
  if falsy email || falsy title || falsy body then (400, [])
  else (200, [{ name := QUEUE_EVENTS.SEND_USER, email := email, title := title, body := body }])

/-- Source producer `sendToUsers` from `notificationController.ts`: validate
`emails` (must be an array), `title`, `body`. -/
def sendToUsers (emails : Option (List String)) (title body : Option String) :
    Nat × List QueuedJob :=
  if missingArray emails || falsy title || falsy body then (400, [])
  else (200, [{ name := QUEUE_EVENTS.SEND_USERS, emails := emails, title := title, body := body }])

/-- Source producer `sendToCourse` from `notificationController.ts`: validate
`courseId, title, body`. -/
def sendToCourse (courseId title body : Option String) : Nat × List QueuedJob :=
  if falsy courseId || falsy title || falsy body then (400, [])
  else (200, [{ name := QUEUE_EVENTS.SEND_COURSE, courseId := courseId, title := title, body := body }])

/-- Source producer `sendToRole` from `notificationController.ts`: validate
`role, title, body`, then reject a role other than student/teacher. -/
def sendToRole (role title body : Option String) : Nat × List QueuedJob :=
  if falsy role || falsy title || falsy body then (400, [])
  else if role ≠ some "student" && role ≠ some "teacher" then (400, [])
  else (200, [{ name := QUEUE_EVENTS.SEND_ROLE, role := role, title := title, body := body }])

/-- Source producer `sendBatch` from `notificationController.ts`: validate that
`notifications` is present and an array. -/
def sendBatch (notifications : Option (List BatchItem)) : Nat × List QueuedJob :=
  if missingArray notifications then (400, [])
  else (200, [{ name := QUEUE_EVENTS.SEND_BATCH, notifications := notifications }])

/-- The `job.data` payload as read by the worker; fields irrelevant to a job
kind default to empty. -/
structure JobData where
  email : String := ""
  emails : List String := []
  courseId : String := ""
  role : String := ""
  title : String := ""
  body : String := ""
  notifications : List BatchItem := []

/-- What the worker's handler returns to the queue on success: the
single-target outcome for send-user, a DispatchSummary otherwise. -/
inductive JobOutcome where
  | single (r : ChannelOutcome)
  | summary (s : DispatchSummary)
deriving Repr, DecidableEq

/-- The BullMQ worker's job handler from `notificationWorker.ts`: switch on
`job.name`, route to the notification service, and rethrow anything thrown
(`throw error` in the catch); an unknown job name throws. The datastore
queries that course/role resolution would await are passed in as
`enrollmentsQuery`/`usersQuery` exactly as in the service functions. An
`Except.error` value is a job-handler failure surfacing to the queue's retry
mechanism. -/
def workerHandler (env : Env)
    (enrollmentsQuery : Except String (List EnrollmentDoc))
    (usersQuery : Except String (List String))
    (name : String) (d : JobData) : Except String JobOutcome :=
  if name = QUEUE_EVENTS.SEND_USER then
    .ok (.single (sendNotificationToUser env d.email d.title d.body).1)
  else if name = QUEUE_EVENTS.SEND_USERS then
    .ok (.summary (sendNotificationToUsers (notifyOfEnv env d.title d.body) d.emails).1)
  else if name = QUEUE_EVENTS.SEND_COURSE then
    .ok (.summary (sendNotificationToCourseStudents enrollmentsQuery
      (notifyOfEnv env d.title d.body)).1)
  else if name = QUEUE_EVENTS.SEND_ROLE then
    .ok (.summary (sendNotificationToUsersByRole usersQuery
      (notifyOfEnv env d.title d.body)).1)
  else if name = QUEUE_EVENTS.SEND_BATCH then
    .ok (.summary (sendBatchNotifications env d.notifications).1)
  else
    .error ("Unknown job name: " ++ name)

/-- The results sequence of `sendNotificationToUsers` is the pointwise caught
dispatch of the input list. -/
theorem users_results
    (notifyE : String → Except String (ChannelOutcome × List PushMessage))
    (emails : List String) :
    (sendNotificationToUsers notifyE emails).1.results =
      emails.map (fun e => (dispatchCaught notifyE e).1) := by
  unfold sendNotificationToUsers
  simp [List.map_map]

/-- Splitting a list by a boolean predicate preserves its length. -/
theorem length_filter_add_length_filter_not {α : Type u} (p : α → Bool) (l : List α) :
    (l.filter p).length + (l.filter (fun a => !(p a))).length = l.length := by
  induction l with
  | nil => rfl
  | cons a t ih =>
    cases h : p a <;> simp [List.filter_cons, h] <;> omega

/-- The invariant claimed of every DispatchSummary:
`total == successful + failed == length(results)`. -/
def summaryInvariant (s : DispatchSummary) : Prop :=
  s.total = s.successful + s.failed ∧ s.total = s.results.length

/-- The full record computed by `sendNotificationToUsers`. -/
theorem usersSummary_eq
    (notifyE : String → Except String (ChannelOutcome × List PushMessage))
    (emails : List String) :
    (sendNotificationToUsers notifyE emails).1 =
      { total := emails.length
        successful :=
          ((emails.map (fun e => (dispatchCaught notifyE e).1)).filter
            (fun r => r.success)).length
        failed := emails.length -
          ((emails.map (fun e => (dispatchCaught notifyE e).1)).filter
            (fun r => r.success)).length
        results := emails.map (fun e => (dispatchCaught notifyE e).1) } := by
  unfold sendNotificationToUsers
  simp [List.map_map, Function.comp_def]

/-- The summary of `sendNotificationToUsers` satisfies the invariant. -/
theorem usersSummary_invariant
    (notifyE : String → Except String (ChannelOutcome × List PushMessage))
    (emails : List String) :
    summaryInvariant (sendNotificationToUsers notifyE emails).1 := by
  unfold summaryInvariant
  rw [usersSummary_eq]
  have h := List.length_filter_le (fun r : TargetResult => r.success)
    (emails.map (fun e => (dispatchCaught notifyE e).1))
  simp only [List.length_map] at h
  refine ⟨?_, ?_⟩
  · simp only []
    omega
  · simp

/-- With enough fuel and a positive chunk size, concatenating the chunks
gives back the original list. -/
theorem chunksOfAux_flatten {α : Type u} (fuel n : Nat) (l : List α)
    (hn : 0 < n) (hf : l.length ≤ fuel) :
    (chunksOfAux fuel n l).flatten = l := by
  induction fuel generalizing l with
  | zero =>
    cases l with
    | nil => rfl
    | cons a t => simp at hf
  | succ f ih =>
    cases l with
    | nil => rfl
    | cons a t =>
      show ((a :: t).take n ++ (chunksOfAux f n ((a :: t).drop n)).flatten) = a :: t
      rw [ih ((a :: t).drop n) (by simp only [List.length_drop, List.length_cons] at hf ⊢; omega)]
      exact List.take_append_drop n (a :: t)

/-- The chunk loop emits the per-item dispatches of the concatenation of the
chunks, in order. -/
theorem batchChunks_results (env : Env) (k : Nat) (cs : List (List BatchItem)) :
    (batchChunks env k cs).1 = cs.flatten.map (batchItemDispatch env) := by
  induction cs with
  | nil => rfl
  | cons c rest ih => simp [batchChunks, ih]

/-- The chunk loop sleeps once after every chunk when the total chunk count
exceeds one, and never otherwise. -/
theorem batchChunks_delays (env : Env) (k : Nat) (cs : List (List BatchItem)) :
    (batchChunks env k cs).2 = if 1 < k then cs.length else 0 := by
  induction cs with
  | nil => simp [batchChunks]
  | cons c rest ih =>
    by_cases h : 1 < k <;> simp [batchChunks, ih, h, Nat.add_comm]

/-- For a positive chunk size, `sendBatchNotifications` preserves the input
order: its results are exactly the per-item dispatches of the input list. -/
theorem sendBatch_results (env : Env) (ns : List BatchItem) (chunkSize : Nat)
    (hc : 0 < chunkSize) :
    (sendBatchNotifications env ns chunkSize).1.results =
      ns.map (batchItemDispatch env) := by
  unfold sendBatchNotifications
  simp only []
  rw [batchChunks_results, chunksOf, chunksOfAux_flatten ns.length chunkSize ns hc le_rfl]

/-- The summary of `sendBatchNotifications` satisfies the invariant for a positive
chunk size. -/
theorem batchSummary_invariant (env : Env) (ns : List BatchItem) (chunkSize : Nat)
    (hc : 0 < chunkSize) :
    summaryInvariant (sendBatchNotifications env ns chunkSize).1 := by
  have hres := sendBatch_results env ns chunkSize hc
  have hlen : (sendBatchNotifications env ns chunkSize).1.results.length = ns.length := by
    rw [hres]; simp
  have hsucc : (sendBatchNotifications env ns chunkSize).1.successful =
      ((sendBatchNotifications env ns chunkSize).1.results.filter
        (fun r => r.success)).length := rfl
  have htot : (sendBatchNotifications env ns chunkSize).1.total = ns.length := rfl
  have hfail : (sendBatchNotifications env ns chunkSize).1.failed =
      ns.length - (sendBatchNotifications env ns chunkSize).1.successful := rfl
  have hle := List.length_filter_le (fun r : TargetResult => r.success)
    ((sendBatchNotifications env ns chunkSize).1.results)
  constructor
  · rw [htot, hfail]
    omega
  · rw [htot, hlen]

/-- C3: every DispatchSummary produced by the four multi-target dispatch
operations satisfies `total == successful + failed == length(results)`
(chunk size positive for the batch operation; the source only ever uses the
default 100). -/
theorem dispatchSummary_invariant
    (notifyE : String → Except String (ChannelOutcome × List PushMessage))
    (emails : List String)
    (cq : Except String (List EnrollmentDoc))
    (uq : Except String (List String))
    (env : Env) (ns : List BatchItem) (chunkSize : Nat) (hc : 0 < chunkSize) :
    summaryInvariant (sendNotificationToUsers notifyE emails).1 ∧
    summaryInvariant (sendNotificationToCourseStudents cq notifyE).1 ∧
    summaryInvariant (sendNotificationToUsersByRole uq notifyE).1 ∧
    summaryInvariant (sendBatchNotifications env ns chunkSize).1 := by
  refine ⟨usersSummary_invariant notifyE emails, ?_, ?_,
    batchSummary_invariant env ns chunkSize hc⟩
  · unfold sendNotificationToCourseStudents
    cases cq with
    | error err => exact ⟨rfl, rfl⟩
    | ok docs =>
      simp only []
      split
      · exact ⟨rfl, rfl⟩
      · exact usersSummary_invariant notifyE (docs.map (fun d => d.studentEmail))
  · unfold sendNotificationToUsersByRole
    cases uq with
    | error err => exact ⟨rfl, rfl⟩
    | ok us =>
      simp only []
      split
      · exact ⟨rfl, rfl⟩
      · exact usersSummary_invariant notifyE us

/-- Witness for C3 at concrete inputs for all four operations. -/
theorem dispatchSummary_invariant_witness :
    summaryInvariant (sendNotificationToUsers (notifyOfEnv envStaleToken "T" "B")
      ["a@x.com", "a@x.com"]).1 ∧
    summaryInvariant (sendNotificationToCourseStudents
      (.ok [{ courseId := "c1", studentEmail := "a@x.com" }])
      (notifyOfEnv envStaleToken "T" "B")).1 ∧
    summaryInvariant (sendNotificationToUsersByRole (.ok ["a@x.com"])
      (notifyOfEnv envStaleToken "T" "B")).1 ∧
    summaryInvariant (sendBatchNotifications envStaleToken
      [{ email := "a@x.com", title := "T", body := "B" }] 100).1 :=
  dispatchSummary_invariant (notifyOfEnv envStaleToken "T" "B")
    ["a@x.com", "a@x.com"]
    (.ok [{ courseId := "c1", studentEmail := "a@x.com" }])
    (.ok ["a@x.com"])
    envStaleToken
    [{ email := "a@x.com", title := "T", body := "B" }] 100 (by decide)

/-- C6: a course with zero enrollment rows, and a role with zero users,
short-circuit to the zero DispatchSummary: no message is posted to the
gateway and `sendNotificationToUsers` is never invoked (last two
components). -/
theorem empty_resolution_short_circuit
    (notifyE : String → Except String (ChannelOutcome × List PushMessage)) :
    sendNotificationToCourseStudents (.ok []) notifyE =
      ({ total := 0, successful := 0, failed := 0, results := [] }, [], 0) ∧
    sendNotificationToUsersByRole (.ok []) notifyE =
      ({ total := 0, successful := 0, failed := 0, results := [] }, [], 0) :=
  ⟨rfl, rfl⟩

/-- The caught per-target dispatch tags the outcome with its own email. -/
theorem dispatchCaught_fst_email
    (notifyE : String → Except String (ChannelOutcome × List PushMessage))
    (email : String) :
    ((dispatchCaught notifyE email).1).email = email := by
  unfold dispatchCaught
  cases notifyE email <;> rfl

/-- C10: `sendNotificationToUsers` performs no deduplication: for every
email list (duplicates included) it produces exactly one result per input
element, in input order, each tagged with that element, and counts the input
list's length as `total`. -/
theorem notifyMany_no_dedup
    (notifyE : String → Except String (ChannelOutcome × List PushMessage))
    (emails : List String) :
    (sendNotificationToUsers notifyE emails).1.total = emails.length ∧
    (sendNotificationToUsers notifyE emails).1.results.map (fun r => r.email) = emails ∧
    (sendNotificationToUsers notifyE emails).1.results =
      emails.map (fun e => (dispatchCaught notifyE e).1) := by
  refine ⟨rfl, ?_, users_results notifyE emails⟩
  rw [users_results]
  simp [List.map_map, Function.comp_def, dispatchCaught_fst_email]

/-- The lengths of the chunks, computed from the input length alone. -/
def lensAux (fuel n len : Nat) : List Nat :=
  match fuel, len with
  | 0, _ => []
  | _ + 1, 0 => []
  | f + 1, L + 1 => min n (L + 1) :: lensAux f n (L + 1 - n)

/-- The chunk lengths of `chunksOfAux` depend only on the input length. -/
theorem chunksOfAux_map_length {α : Type u} (fuel n : Nat) (l : List α) :
    (chunksOfAux fuel n l).map List.length = lensAux fuel n l.length := by
  induction fuel generalizing l with
  | zero => rfl
  | succ f ih =>
    cases l with
    | nil => rfl
    | cons a t =>
      show ((a :: t).take n).length :: (chunksOfAux f n ((a :: t).drop n)).map List.length =
        lensAux (f + 1) n (a :: t).length
      rw [ih, List.length_take, List.length_drop]
      rfl

/-- A convenience list of 250 identical batch items. -/
def batch250 : List BatchItem :=
  List.replicate 250 { email := "a@x.com", title := "T", body := "B" }

/-- C5 counterexample: on a concrete 250-item batch with chunk size 100 the
code performs THREE 1-second pauses, not two: the pause runs after every
chunk (the guard is `chunks.length > 1`), including after the last one. -/
theorem notifyBatch_delay_counterexample :
    (sendBatchNotifications envNoToken batch250 100).2 = 3 ∧
    (sendBatchNotifications envNoToken batch250 100).2 ≠ 2 := by
  have h3 : (sendBatchNotifications envNoToken batch250 100).2 = 3 := by rfl
  refine ⟨h3, ?_⟩
  rw [h3]
  decide

/-- C5 amended: for any 250-item batch and chunk size 100, the dispatch
produces exactly 3 chunks of sizes 100, 100 and 50, returns the per-item
results in the original input order, and performs exactly 3 one-second
pauses — one after EVERY chunk (the source pauses whenever `chunks.length > 1`,
also after the last chunk), not only between consecutive chunks. -/
theorem notifyBatch_chunking (env : Env) (ns : List BatchItem)
    (h : ns.length = 250) :
    (chunksOf 100 ns).map List.length = [100, 100, 50] ∧
    (sendBatchNotifications env ns 100).1.results = ns.map (batchItemDispatch env) ∧
    (sendBatchNotifications env ns 100).2 = 3 := by
  have hmap : (chunksOf 100 ns).map List.length = [100, 100, 50] := by
    unfold chunksOf
    rw [chunksOfAux_map_length, h]
    rfl
  refine ⟨hmap, sendBatch_results env ns 100 (by decide), ?_⟩
  have hlen : (chunksOf 100 ns).length = 3 := by
    have h3 := congrArg List.length hmap
    simpa using h3
  show (batchChunks env (chunksOf 100 ns).length (chunksOf 100 ns)).2 = 3
  rw [batchChunks_delays, hlen]
  rfl

/-- Witness for C5 amended at the concrete 250-item batch. -/
theorem notifyBatch_chunking_witness :
    (chunksOf 100 batch250).map List.length = [100, 100, 50] ∧
    (sendBatchNotifications envNoToken batch250 100).1.results =
      batch250.map (batchItemDispatch envNoToken) ∧
    (sendBatchNotifications envNoToken batch250 100).2 = 3 :=
  notifyBatch_chunking envNoToken batch250 (by rfl)

/-- A per-target behaviour that throws for exactly one email. -/
def notifyBoom : String → Except String (ChannelOutcome × List PushMessage) :=
  fun email => if email = "bad@x.com" then .error "boom" else .ok ({ success := true }, [])

/-- C7: a thrown error while dispatching one target of
`sendNotificationToUsers` is caught and becomes a per-target
`{email, success:false, error}` record at that target's position; every
other position still carries its own independently computed dispatch outcome
(no abort), and `failed` counts exactly the unsuccessful records. -/
theorem notifyMany_error_isolation
    (notifyE : String → Except String (ChannelOutcome × List PushMessage))
    (emails : List String) (i : Nat) (hi : i < emails.length) (err : String)
    (hthrow : notifyE (emails.get ⟨i, hi⟩) = .error err) :
    (sendNotificationToUsers notifyE emails).1.results.length = emails.length ∧
    (sendNotificationToUsers notifyE emails).1.results[i]? =
      some { email := emails.get ⟨i, hi⟩, success := false, error := some err } ∧
    (∀ j, j ≠ i → (sendNotificationToUsers notifyE emails).1.results[j]? =
      (emails[j]?).map (fun e => (dispatchCaught notifyE e).1)) ∧
    (sendNotificationToUsers notifyE emails).1.failed =
      ((sendNotificationToUsers notifyE emails).1.results.filter
        (fun r => !r.success)).length := by
  have hres := users_results notifyE emails
  refine ⟨?_, ?_, ?_, ?_⟩
  · rw [hres]; simp
  · have hmap : (emails.map (fun e => (dispatchCaught notifyE e).1))[i]? =
        some ((dispatchCaught notifyE (emails.get ⟨i, hi⟩)).1) := by
      rw [List.getElem?_map, List.getElem?_eq_getElem hi]
      rfl
    rw [hres, hmap]
    unfold dispatchCaught
    rw [hthrow]
  · intro j _
    rw [hres, List.getElem?_map]
  · have hinv := usersSummary_invariant notifyE emails
    unfold summaryInvariant at hinv
    have hsplit := length_filter_add_length_filter_not (fun r : TargetResult => r.success)
      (sendNotificationToUsers notifyE emails).1.results
    have hsucc : (sendNotificationToUsers notifyE emails).1.successful =
        ((sendNotificationToUsers notifyE emails).1.results.filter
          (fun r => r.success)).length := rfl
    have hfail : (sendNotificationToUsers notifyE emails).1.failed =
        (sendNotificationToUsers notifyE emails).1.total -
          (sendNotificationToUsers notifyE emails).1.successful := rfl
    omega

/-- Witness for C7: a two-target dispatch whose second target throws. -/
theorem notifyMany_error_isolation_witness :
    (sendNotificationToUsers notifyBoom ["good@x.com", "bad@x.com"]).1.results.length =
      (["good@x.com", "bad@x.com"] : List String).length ∧
    (sendNotificationToUsers notifyBoom ["good@x.com", "bad@x.com"]).1.results[1]? =
      some { email := "bad@x.com", success := false, error := some "boom" } ∧
    (∀ j, j ≠ 1 →
      (sendNotificationToUsers notifyBoom ["good@x.com", "bad@x.com"]).1.results[j]? =
        ((["good@x.com", "bad@x.com"] : List String)[j]?).map
          (fun e => (dispatchCaught notifyBoom e).1)) ∧
    (sendNotificationToUsers notifyBoom ["good@x.com", "bad@x.com"]).1.failed =
      ((sendNotificationToUsers notifyBoom ["good@x.com", "bad@x.com"]).1.results.filter
        (fun r => !r.success)).length :=
  notifyMany_error_isolation notifyBoom ["good@x.com", "bad@x.com"] 1 (by decide)
    "boom" (by rfl)

/-- Membership after one set insertion. -/
theorem mem_addUnique (acc : List String) (x y : String) :
    y ∈ addUnique acc x ↔ y ∈ acc ∨ y = x := by
  unfold addUnique
  by_cases h : x ∈ acc
  · simp only [h, if_true]
    constructor
    · exact fun hy => Or.inl hy
    · rintro (hy | rfl)
      · exact hy
      · exact h
  · simp [h]

/-- Membership after inserting every student email of a list. -/
theorem mem_foldl_addUnique_email (l : List StudentRec) (acc : List String) (y : String) :
    y ∈ l.foldl (fun a s => addUnique a s.email) acc ↔
      y ∈ acc ∨ ∃ s, s ∈ l ∧ s.email = y := by
  induction l generalizing acc with
  | nil => simp
  | cons s t ih =>
    rw [List.foldl_cons, ih, mem_addUnique]
    constructor
    · rintro ((hy | rfl) | ⟨s', hs', rfl⟩)
      · exact Or.inl hy
      · exact Or.inr ⟨s, List.mem_cons_self s t, rfl⟩
      · exact Or.inr ⟨s', List.mem_cons_of_mem s hs', rfl⟩
    · rintro (hy | ⟨s', hs', rfl⟩)
      · exact Or.inl (Or.inl hy)
      · rcases List.mem_cons.mp hs' with rfl | hmem
        · exact Or.inl (Or.inr rfl)
        · exact Or.inr ⟨s', hmem, rfl⟩

/-- Membership in the outer fold over the enrollment rows. -/
theorem mem_foldl_rows (students : List StudentRec) (rows : List EnrollmentRow)
    (acc : List String) (y : String) :
    y ∈ rows.foldl
        (fun acc e =>
          (studentsInRange students e.startId e.endId).foldl
            (fun a s => addUnique a s.email) acc) acc ↔
      y ∈ acc ∨ ∃ e, e ∈ rows ∧
        ∃ s, s ∈ studentsInRange students e.startId e.endId ∧ s.email = y := by
  induction rows generalizing acc with
  | nil => simp
  | cons e t ih =>
    rw [List.foldl_cons, ih, mem_foldl_addUnique_email]
    constructor
    · rintro ((hy | ⟨s, hs, rfl⟩) | ⟨e', he', s', hs', rfl⟩)
      · exact Or.inl hy
      · exact Or.inr ⟨e, List.mem_cons_self e t, s, hs, rfl⟩
      · exact Or.inr ⟨e', List.mem_cons_of_mem e he', s', hs', rfl⟩
    · rintro (hy | ⟨e', he', s', hs', rfl⟩)
      · exact Or.inl (Or.inl hy)
      · rcases List.mem_cons.mp he' with rfl | hmem
        · exact Or.inl (Or.inr ⟨s', hs', rfl⟩)
        · exact Or.inr ⟨e', hmem, s', hs', rfl⟩

/-- C4: resolving a course yields exactly the emails of students that exist
and whose numeric id lies in the union of the course's closed enrollment
ranges; in particular, for ranges 101-103 and 105-105 with only students
101, 102, 105 existing, the result is exactly the emails of 101, 102 and
105. -/
theorem course_target_resolution :
    (∀ (enrollments : List EnrollmentRow) (students : List StudentRec) (courseId y : String),
      y ∈ getEnrolledStudentEmails enrollments students courseId ↔
        ∃ s, s ∈ students ∧ s.email = y ∧
          ∃ e, e ∈ enrollments ∧ e.course = courseId ∧
            e.startId ≤ s.studentId ∧ s.studentId ≤ e.endId) ∧
    getEnrolledStudentEmails
      [{ course := "c1", startId := 101, endId := 103 },
       { course := "c1", startId := 105, endId := 105 }]
      [{ studentId := 101, email := getStudentEmailFromId 101 },
       { studentId := 102, email := getStudentEmailFromId 102 },
       { studentId := 105, email := getStudentEmailFromId 105 }]
      "c1" =
      [getStudentEmailFromId 101, getStudentEmailFromId 102, getStudentEmailFromId 105] := by
  constructor
  · intro enrollments students courseId y
    unfold getEnrolledStudentEmails
    rw [mem_foldl_rows]
    simp only [List.not_mem_nil, false_or, List.mem_filter, studentsInRange,
      beq_iff_eq, Bool.and_eq_true, decide_eq_true_eq]
    constructor
    · rintro ⟨e, ⟨heE, hec⟩, s, ⟨hsS, h1, h2⟩, hey⟩
      exact ⟨s, hsS, hey, e, heE, hec, h1, h2⟩
    · rintro ⟨s, hsS, hey, e, heE, hec, h1, h2⟩
      exact ⟨e, ⟨heE, hec⟩, s, ⟨hsS, h1, h2⟩, hey⟩
  · decide

/-- Whether a handler outcome is a thrown error (surfacing to the queue's
retry mechanism). -/
def escapes {ε : Type u} {α : Type u} : Except ε α → Bool
  | .ok _ => false
  | .error _ => true

/-- A job payload with every field at its default. -/
def jobData0 : JobData := {}

/-- C8 counterexample: a datastore failure while resolving a send-to-course
job does NOT propagate to the worker boundary: the service's catch converts
it into a zero-valued summary carrying the error string, and the worker's
handler returns it as a normal (success) job outcome. -/
theorem worker_resolver_failure_counterexample :
    workerHandler envNoToken (.error "ECONNREFUSED") (.ok [])
        QUEUE_EVENTS.SEND_COURSE jobData0 =
      .ok (.summary { total := 0, successful := 0, failed := 0, results := [],
                      error := some "ECONNREFUSED" }) ∧
    escapes (workerHandler envNoToken (.error "ECONNREFUSED") (.ok [])
      QUEUE_EVENTS.SEND_COURSE jobData0) = false := by
  constructor
  · rfl
  · rfl

/-- C8 amended: exactly ONE error class escapes the worker's job handler —
an unrecognized job kind. Every datastore failure during course or role
resolution is caught inside the notification service and reported back as a
normal summary, so it never reaches the worker boundary. -/
theorem worker_error_escape_iff_unknown_kind (env : Env)
    (cq : Except String (List EnrollmentDoc)) (uq : Except String (List String))
    (name : String) (d : JobData) :
    escapes (workerHandler env cq uq name d) = true ↔
      (name ≠ QUEUE_EVENTS.SEND_USER ∧ name ≠ QUEUE_EVENTS.SEND_USERS ∧
       name ≠ QUEUE_EVENTS.SEND_COURSE ∧ name ≠ QUEUE_EVENTS.SEND_ROLE ∧
       name ≠ QUEUE_EVENTS.SEND_BATCH) := by
  unfold workerHandler
  split_ifs with h1 h2 h3 h4 h5 <;> simp_all [escapes]

/-- C9: every producer-facing enqueue operation rejects a payload missing a
required field with status 400 and enqueues nothing, so such a payload never
reaches the worker. Each conjunct substitutes one missing required field;
the remaining fields are arbitrary. -/
theorem producers_reject_missing_fields :
    (∀ t b, sendToUser none t b = (400, [])) ∧
    (∀ e b, sendToUser e none b = (400, [])) ∧
    (∀ e t, sendToUser e t none = (400, [])) ∧
    (∀ t b, sendToUsers none t b = (400, [])) ∧
    (∀ es b, sendToUsers es none b = (400, [])) ∧
    (∀ es t, sendToUsers es t none = (400, [])) ∧
    (∀ t b, sendToCourse none t b = (400, [])) ∧
    (∀ c b, sendToCourse c none b = (400, [])) ∧
    (∀ c t, sendToCourse c t none = (400, [])) ∧
    (∀ t b, sendToRole none t b = (400, [])) ∧
    (∀ r b, sendToRole r none b = (400, [])) ∧
    (∀ r t, sendToRole r t none = (400, [])) ∧
    sendBatch none = (400, []) := by
  refine ⟨fun t b => ?_, fun e b => ?_, fun e t => ?_, fun t b => ?_, fun es b => ?_,
    fun es t => ?_, fun t b => ?_, fun c b => ?_, fun c t => ?_, fun t b => ?_,
    fun r b => ?_, fun r t => ?_, ?_⟩ <;>
  simp [sendToUser, sendToUsers, sendToCourse, sendToRole, sendBatch, falsy, missingArray]
